import Mathlib

/-!
Verification development for the vibecraft repository.

The definitions below are shallow embeddings of the TypeScript sources:

* `src/state/VillageContext.tsx` — the village reducer and its state/action types.
* `src/App.tsx` (locations config) — the tool → location table and lookup.
* `src/utils/villageLayout.ts` — the staggered-grid layout algorithm.
* `server/ScenarioPlanner.ts` — the three planning calls and the station roles.
* `server/ScenarioGenerator.ts` — the generation pipeline (44-step snapshot), with
  every external effect (HTTP planning call, image diffusion, background removal,
  file writes, catalog read) represented by an oracle environment, and the
  broadcast callback represented by an accumulated list of `Broadcast` records.
* A spec-modelled embedding of the newest generation pipeline (49 steps, three
  planning calls, nine locations), whose snapshot is not among the given sources;
  only its callee `ScenarioPlanner` is.

JavaScript numbers are modelled as exact rationals (`ℚ`), JS string maps as
association lists, and thrown exceptions as `Except` failure values.
-/

-- ===========================================================================
-- Village state machine — src/state/VillageContext.tsx
-- ===========================================================================

/-- The nine fixed village station identifiers (`VillageLocationType` in
`src/App.tsx` / `config/locations`). -/
inductive VillageLocationType
  | library
  | cottage
  | workshop
  | terminal
  | observatory
  | signal_tower
  | town_hall
  | notice_board
  | square
deriving DecidableEq

/-- The main character behavioural states (`ClaudeState` in `shared/types`). -/
inductive ClaudeState
  | idle
  | working
  | thinking
  | finished
deriving DecidableEq

/-- `CharacterState` from `src/state/VillageContext.tsx`. -/
structure CharacterState where
  location : VillageLocationType
  previousLocation : Option VillageLocationType
  state : ClaudeState
  isMoving : Bool
  currentTool : Option String
  sessionId : Option String
deriving DecidableEq

/-- `SubagentState` from `src/state/VillageContext.tsx`. -/
structure SubagentState where
  id : String
  toolUseId : String
  description : String
  location : VillageLocationType
  state : ClaudeState
deriving DecidableEq

/-- `VillageState` from `src/state/VillageContext.tsx`; `zoom` is a JS number,
modelled as an exact rational. -/
structure VillageState where
  character : CharacterState
  subagents : List SubagentState
  activeLocation : Option VillageLocationType
  soundEnabled : Bool
  showLabels : Bool
  zoom : ℚ
deriving DecidableEq

/-- `VillageAction` from `src/state/VillageContext.tsx`. The reducer's `switch`
has a `default` branch, and at runtime a dispatched action object may carry any
`type` tag, so the embedding adds the constructor `UNKNOWN ty` standing for an
action whose `type` string `ty` is none of the eleven defined tags. -/
inductive VillageAction
  | MOVE_TO_LOCATION (location : VillageLocationType)
  | SET_CHARACTER_STATE (state : ClaudeState) (tool : Option String)
  | FINISH_MOVING
  | SET_SESSION (sessionId : String)
  | SPAWN_SUBAGENT (payload : SubagentState)
  | REMOVE_SUBAGENT (toolUseId : String)
  | SET_ACTIVE_LOCATION (location : Option VillageLocationType)
  | TOGGLE_SOUND
  | TOGGLE_LABELS
  | SET_ZOOM (zoom : ℚ)
  | RESET
  | UNKNOWN (ty : String)

/-- `initialState` from `src/state/VillageContext.tsx`. -/
def initialState : VillageState :=
  { character :=
      { location := VillageLocationType.square
        previousLocation := none
        state := ClaudeState.idle
        isMoving := false
        currentTool := none
        sessionId := none }
    subagents := []
    activeLocation := none
    soundEnabled := true
    showLabels := true
    zoom := 1 }

/-- `villageReducer` from `src/state/VillageContext.tsx`, case by case.  The
TS `return state` branches (no-op move, duplicate spawn, `default`) return the
argument itself, modelled as returning `s` unchanged. -/
def villageReducer (s : VillageState) (action : VillageAction) : VillageState :=
  match action with
  | VillageAction.MOVE_TO_LOCATION location =>
    if location = s.character.location then s
    else
      { s with
        character :=
          { s.character with
            previousLocation := some s.character.location
            location := location
            isMoving := true }
        activeLocation := some location }
  | VillageAction.SET_CHARACTER_STATE newState tool =>
    { s with
      character :=
        { s.character with
          state := newState
          currentTool :=
            match tool with
            | some t => some t
            | none => s.character.currentTool } }
  | VillageAction.FINISH_MOVING =>
    { s with character := { s.character with isMoving := false } }
  | VillageAction.SET_SESSION sessionId =>
    { s with character := { s.character with sessionId := some sessionId } }
  | VillageAction.SPAWN_SUBAGENT payload =>
    if s.subagents.any (fun sub => sub.toolUseId == payload.toolUseId) then s
    else { s with subagents := s.subagents ++ [payload] }
  | VillageAction.REMOVE_SUBAGENT toolUseId =>
    { s with subagents := s.subagents.filter (fun sub => sub.toolUseId != toolUseId) }
  | VillageAction.SET_ACTIVE_LOCATION location =>
    { s with activeLocation := location }
  | VillageAction.TOGGLE_SOUND =>
    { s with soundEnabled := !s.soundEnabled }
  | VillageAction.TOGGLE_LABELS =>
    { s with showLabels := !s.showLabels }
  | VillageAction.SET_ZOOM zoom =>
    { s with zoom := max 0.5 (min 2 zoom) }
  | VillageAction.RESET => initialState
  | VillageAction.UNKNOWN _ => s

-- ===========================================================================
-- Tool → location mapping — src/App.tsx (locations config)
-- ===========================================================================

/-- `TOOL_TO_LOCATION` from `src/App.tsx`: the JS record is modelled as an
association list in the source's key order. -/
def TOOL_TO_LOCATION : List (String × VillageLocationType) :=
  [("Read", VillageLocationType.library),
   ("Write", VillageLocationType.cottage),
   ("Edit", VillageLocationType.workshop),
   ("Bash", VillageLocationType.terminal),
   ("Grep", VillageLocationType.observatory),
   ("Glob", VillageLocationType.observatory),
   ("WebFetch", VillageLocationType.signal_tower),
   ("WebSearch", VillageLocationType.signal_tower),
   ("Task", VillageLocationType.town_hall),
   ("TodoWrite", VillageLocationType.notice_board),
   ("AskUserQuestion", VillageLocationType.square),
   ("NotebookEdit", VillageLocationType.cottage)]

/-- `getLocationForTool` from `src/App.tsx`: `TOOL_TO_LOCATION[tool] ?? 'square'`. -/
def getLocationForTool (tool : String) : VillageLocationType :=
  (TOOL_TO_LOCATION.lookup tool).getD VillageLocationType.square

-- ===========================================================================
-- Village layout algorithm — src/utils/villageLayout.ts
-- ===========================================================================

/-- Game window size in pixels (`GameWindowSize` from
`src/hooks/useGameWindowSize.ts`), as consumed by the layout algorithm. -/
structure GameWindowSize where
  width : ℚ
  height : ℚ
deriving DecidableEq

/-- `PositionedLocation` from `src/utils/villageLayout.ts`.  The algorithm
never inspects the location records, so they are kept as a type parameter. -/
structure PositionedLocation (α : Type) where
  location : α
  x : ℚ
  y : ℚ
deriving DecidableEq

/-- One row of the staggered grid: each loop body of the source pushes
`{location, x: currentX, y: currentY}` and then advances
`currentX += locationWidth`. -/
def layoutRow {α : Type} : List α → ℚ → ℚ → ℚ → List (PositionedLocation α)
  | [], _, _, _ => []
  | a :: rest, curX, y, w => ⟨a, curX, y⟩ :: layoutRow rest (curX + w) y w

/-- `computeVillageLayout` from `src/utils/villageLayout.ts`, branch for
branch: N ≥ 9 gives three rows of 3/3/(N−6) starting at `0.12·height`, the
middle row shifted right by half a cell; odd N < 9 gives rows of ⌊N/2⌋+1 and
the rest; even N < 9 gives rows of N/2 and N/2, both smaller cases starting at
`0.2·height`.  JS `locations.length / 2` in the start-x formula is float
division, modelled by rational division. -/
def computeVillageLayout {α : Type} (locations : List α) (g : GameWindowSize) :
    List (PositionedLocation α) :=
  let locationWidth := g.width / 4.5
  let locationHeight := g.height / 4.5
  if 9 ≤ locations.length then
    let locationStartX :=
      g.width / 2 - locationWidth / 2 - (3 * locationWidth / 2 - locationWidth / 4)
    layoutRow (locations.take 3) locationStartX (g.height * 0.12) locationWidth ++
    layoutRow ((locations.drop 3).take 3) (locationStartX + locationWidth / 2)
      (g.height * 0.12 + locationHeight) locationWidth ++
    layoutRow (locations.drop 6) locationStartX
      (g.height * 0.12 + locationHeight + locationHeight) locationWidth
  else if locations.length % 2 ≠ 0 then
    let locationStartX :=
      g.width / 2 - locationWidth / 2 -
        ((locations.length : ℚ) / 2 * locationWidth) / 2 - locationWidth / 4
    layoutRow (locations.take (locations.length / 2 + 1)) locationStartX
      (g.height * 0.2) locationWidth ++
    layoutRow (locations.drop (locations.length / 2 + 1))
      (locationStartX + locationWidth / 2) (g.height * 0.2 + locationHeight) locationWidth
  else
    let locationStartX :=
      g.width / 2 - locationWidth / 2 -
        ((locations.length : ℚ) / 2 * locationWidth) / 2 - locationWidth / 4
    layoutRow (locations.take (locations.length / 2)) locationStartX
      (g.height * 0.2) locationWidth ++
    layoutRow (locations.drop (locations.length / 2))
      (locationStartX + locationWidth / 2) (g.height * 0.2 + locationHeight) locationWidth

/-- Shape of the computed layout for nine locations: three rows of exactly 3
entries; the first row at `0.12·height` with cells one `locationWidth` apart
from the canonical start x, the second row one `locationHeight` lower and
shifted right by half a cell, the third another `locationHeight` lower back at
the start x; the three row y values strictly increase. -/
def layoutNineRows {α : Type} (xs : List α) (g : GameWindowSize) : Prop :=
  (computeVillageLayout xs g).length = 9 ∧
  ((computeVillageLayout xs g).map fun p => p.y) =
    [g.height * 0.12, g.height * 0.12, g.height * 0.12,
     g.height * 0.12 + g.height / 4.5,
     g.height * 0.12 + g.height / 4.5,
     g.height * 0.12 + g.height / 4.5,
     g.height * 0.12 + g.height / 4.5 + g.height / 4.5,
     g.height * 0.12 + g.height / 4.5 + g.height / 4.5,
     g.height * 0.12 + g.height / 4.5 + g.height / 4.5] ∧
  ((computeVillageLayout xs g).map fun p => p.x) =
    [g.width / 2 - g.width / 4.5 / 2 - (3 * (g.width / 4.5) / 2 - g.width / 4.5 / 4),
     g.width / 2 - g.width / 4.5 / 2 - (3 * (g.width / 4.5) / 2 - g.width / 4.5 / 4) + g.width / 4.5,
     g.width / 2 - g.width / 4.5 / 2 - (3 * (g.width / 4.5) / 2 - g.width / 4.5 / 4) + g.width / 4.5 + g.width / 4.5,
     g.width / 2 - g.width / 4.5 / 2 - (3 * (g.width / 4.5) / 2 - g.width / 4.5 / 4) + g.width / 4.5 / 2,
     g.width / 2 - g.width / 4.5 / 2 - (3 * (g.width / 4.5) / 2 - g.width / 4.5 / 4) + g.width / 4.5 / 2 + g.width / 4.5,
     g.width / 2 - g.width / 4.5 / 2 - (3 * (g.width / 4.5) / 2 - g.width / 4.5 / 4) + g.width / 4.5 / 2 + g.width / 4.5 + g.width / 4.5,
     g.width / 2 - g.width / 4.5 / 2 - (3 * (g.width / 4.5) / 2 - g.width / 4.5 / 4),
     g.width / 2 - g.width / 4.5 / 2 - (3 * (g.width / 4.5) / 2 - g.width / 4.5 / 4) + g.width / 4.5,
     g.width / 2 - g.width / 4.5 / 2 - (3 * (g.width / 4.5) / 2 - g.width / 4.5 / 4) + g.width / 4.5 + g.width / 4.5] ∧
  g.height * 0.12 < g.height * 0.12 + g.height / 4.5 ∧
  g.height * 0.12 + g.height / 4.5 < g.height * 0.12 + g.height / 4.5 + g.height / 4.5

-- ===========================================================================
-- ScenarioPlanner — server/ScenarioPlanner.ts
-- ===========================================================================

/-- `StationRole` from `server/ScenarioPlanner.ts` (the source field
`function` is spelled `func` here). -/
structure StationRole where
  type : String
  role : String
  func : String
deriving DecidableEq

/-- `STATION_ROLES` from `server/ScenarioPlanner.ts`: the 9 fixed stations of
the village sim, in index order. -/
def STATION_ROLES : List StationRole :=
  [⟨"center", "Central plaza or town square",
    "Where agents idle and gather between tasks"⟩,
   ⟨"bookshelf", "Library or archive",
    "Where agents read files and gather knowledge"⟩,
   ⟨"desk", "Writing studio or scriptorium",
    "Where agents create and write new files"⟩,
   ⟨"workbench", "Workshop or forge",
    "Where agents edit and repair existing work"⟩,
   ⟨"terminal", "Command center or control room",
    "Where agents run commands and scripts"⟩,
   ⟨"scanner", "Observatory or watchtower",
    "Where agents search and scan for patterns in data"⟩,
   ⟨"antenna", "Communications tower or relay station",
    "Where agents fetch data from the outside world"⟩,
   ⟨"portal", "Gateway or summoning circle",
    "Where new sub-agents are spawned and dismissed"⟩,
   ⟨"taskboard", "Mission board or planning hall",
    "Where agents track and manage their task lists"⟩]

/-- One entry of the parsed `locations` array returned by the planning
service. -/
structure RawLocation where
  name : String
  prompt : String
deriving DecidableEq

/-- `LocationPlan` from `server/ScenarioPlanner.ts`. -/
structure LocationPlan where
  stationType : String
  name : String
  prompt : String
deriving DecidableEq

/-- `AgentPlan` from `server/ScenarioPlanner.ts`. -/
structure AgentPlan where
  name : String
  physicalDescription : String
deriving DecidableEq

def defaultStationRole : StationRole := ⟨"", "", ""⟩

/-- Models `parsed.locations.map((loc, i) => ({ stationType:
STATION_ROLES[i].type, name: loc.name, prompt: loc.prompt }))`, carrying the
running index `i`. -/
def assignStationRoles : Nat → List RawLocation → List LocationPlan
  | _, [] => []
  | i, loc :: rest =>
    ⟨(STATION_ROLES.getD i defaultStationRole).type, loc.name, loc.prompt⟩ ::
      assignStationRoles (i + 1) rest

/-- `planLocations` from `server/ScenarioPlanner.ts`, after the HTTP call and
`JSON.parse` (modelled by the caller): the argument is the parsed `locations`
field, `none` when it is missing or not an array (in which case
`parsed.locations?.length ?? 0` is 0).  The guard throws unless the array has
exactly 9 entries, naming expected and actual counts. -/
def planLocations (parsed : Option (List RawLocation)) : Except String (List LocationPlan) :=
  match parsed with
  | none => Except.error ("planLocations: expected 9 locations, got " ++ toString (0 : Nat))
  | some locs =>
    if locs.length = 9 then Except.ok (assignStationRoles 0 locs)
    else Except.error ("planLocations: expected 9 locations, got " ++ toString locs.length)

/-- `planAgents` from `server/ScenarioPlanner.ts`, after the HTTP call and
`JSON.parse` (modelled by the caller): the argument is the parsed `agents`
field; the guard throws unless it has exactly 7 entries, naming expected and
actual counts. -/
def planAgents (parsed : Option (List AgentPlan)) : Except String (List AgentPlan) :=
  match parsed with
  | none => Except.error ("planAgents: expected 7 agents, got " ++ toString (0 : Nat))
  | some ags =>
    if ags.length = 7 then Except.ok ags
    else Except.error ("planAgents: expected 7 agents, got " ++ toString ags.length)

/-- `ScenarioMeta` from `server/ScenarioPlanner.ts` (result of `planMeta`). -/
structure ScenarioMeta where
  id : String
  name : String
  backgroundPrompt : String
deriving DecidableEq


-- ===========================================================================
-- Scenario generation — shared infrastructure (server/ScenarioGenerator.ts)
-- ===========================================================================

/-- The status values of `ProgressBroadcast` in `server/ScenarioGenerator.ts`. -/
inductive Status
  | planning
  | generating
  | saving
  | complete
  | error
deriving DecidableEq

/-- One invocation of the `broadcast` callback:
`(step, total, message, status, error?)`. -/
structure Broadcast where
  step : Nat
  total : Nat
  message : String
  status : Status
  errMsg : Option String
deriving DecidableEq

/-- A thrown JS `Error`: its `message` and optional `cause`. -/
structure GenFailure where
  message : String
  cause : Option String
deriving DecidableEq

/-- The text the catch block of `generateScenario` broadcasts:
`message + (cause ? " — cause: " + cause : "")`. -/
def failureText (f : GenFailure) : String :=
  f.message ++
    (match f.cause with
     | some c => " — cause: " ++ c
     | none => "")

/-- Decoded binary image data (a PNG buffer), kept abstract. -/
structure Image where
  data : String
deriving DecidableEq

/-- The arguments of one `generateImage` call: prompt, size, and the options
record (negative prompt, model checkpoint override, steps, cfg scale). -/
structure ImageRequest where
  prompt : String
  width : Nat
  height : Nat
  negative : String
  model : Option String
  steps : Nat
  cfg : Nat
deriving DecidableEq

/-- An agent's generated pose image paths: the `states` record, as an ordered
association list `stateName → path`. -/
structure AgentCfg where
  states : List (String × String)
deriving DecidableEq

/-- The `newScenario` record pushed onto `scenariosData.scenarios`. -/
structure NewRecord where
  id : String
  name : String
  background : String
  locations : List String
  agents : List AgentCfg
deriving DecidableEq

/-- A catalog entry: either a pre-existing entry parsed from disk (kept
abstract as its JSON text) or a freshly generated record. -/
inductive CatEntry
  | pre (raw : String)
  | generated (r : NewRecord)
deriving DecidableEq

/-- The persisted `public/scenarios.json` document. -/
structure Catalog where
  defaultScenarioId : String
  scenarios : List CatEntry
deriving DecidableEq

/-- Content written by one `writeFileSync` call. -/
inductive FileContent
  | image (img : Image)
  | catalog (c : Catalog)
deriving DecidableEq

/-- State threaded through a pipeline run: the `step` counter, the broadcasts
made so far, counters of external calls consumed (diffusion, background
removal, writes), the image requests issued, and the successful file writes. -/
structure St where
  step : Nat
  brds : List Broadcast
  nImg : Nat
  nStrip : Nat
  nWrite : Nat
  reqs : List ImageRequest
  writes : List (String × FileContent)
deriving DecidableEq

def initSt : St := ⟨0, [], 0, 0, 0, [], []⟩

/-- Models `broadcast(++step, TOTAL, message, status)`: increments the step
counter and appends the progress broadcast. -/
def emit (total : Nat) (message : String) (status : Status) (s : St) : St :=
  { s with
    step := s.step + 1
    brds := s.brds ++ [⟨s.step + 1, total, message, status, none⟩] }

/-- One `generateImage` call: the outcome of the n-th diffusion request is
drawn from the oracle `img`; the request is recorded either way (the HTTP
request was issued before any failure). -/
def callImage (img : Nat → Except GenFailure Image) (req : ImageRequest) (s : St) :
    Except (GenFailure × St) (Image × St) :=
  match img s.nImg with
  | Except.ok i => Except.ok (i, { s with nImg := s.nImg + 1, reqs := s.reqs ++ [req] })
  | Except.error f => Except.error (f, { s with nImg := s.nImg + 1, reqs := s.reqs ++ [req] })

/-- One `stripBackground` call, drawn from the oracle `strip`. -/
def callStrip (strip : Nat → Except GenFailure Image) (s : St) :
    Except (GenFailure × St) (Image × St) :=
  match strip s.nStrip with
  | Except.ok i => Except.ok (i, { s with nStrip := s.nStrip + 1 })
  | Except.error f => Except.error (f, { s with nStrip := s.nStrip + 1 })

/-- One `writeFileSync` call, drawn from the oracle `w`; on success the
(path, content) pair is appended to the write log. -/
def callWrite (w : Nat → Except GenFailure Unit) (path : String) (content : FileContent)
    (s : St) : Except (GenFailure × St) (Unit × St) :=
  match w s.nWrite with
  | Except.ok _ =>
    Except.ok ((), { s with nWrite := s.nWrite + 1, writes := s.writes ++ [(path, content)] })
  | Except.error f => Except.error (f, { s with nWrite := s.nWrite + 1 })

/-- The save step's catalog computation (`server/ScenarioGenerator.ts`): seed
`{defaultScenarioId: "neo_tokyo", scenarios: []}` when `scenarios.json` does
not exist, otherwise re-parse the existing file (which may throw); then push
the new record. -/
def savedCatalog (onDisk : Option (Except GenFailure Catalog)) (r : NewRecord) :
    Except GenFailure Catalog :=
  match onDisk with
  | none => Except.ok ⟨"neo_tokyo", [CatEntry.generated r]⟩
  | some (Except.ok c) =>
    Except.ok { c with scenarios := c.scenarios ++ [CatEntry.generated r] }
  | some (Except.error f) => Except.error f

/-- `SHARED_MODEL` from `server/ScenarioGenerator.ts`. -/
def SHARED_MODEL : String := "fantasyWorld_v10.safetensors [524882ba22]"

/-- `BACKGROUND_NEGATIVE` from `server/ScenarioGenerator.ts`. -/
def BACKGROUND_NEGATIVE : String :=
  "1girl,text,cropped,word,low quality,normal quality,soft line username,(watermark),(signature),blurry,soft,curved line,sketch,ugly,logo,pixelated,lowres,buildings,(building),"

/-- `buildBackgroundPrompt` from `server/ScenarioGenerator.ts`. -/
def buildBackgroundPrompt (userInput : String) : String :=
  "(landscape),((nature)),(isometric),Isometric_Setting,<lora:Stylized_Setting_SDXL:1>," ++
    userInput

/-- `LOCATION_NEGATIVE` from `server/ScenarioGenerator.ts`. -/
def LOCATION_NEGATIVE : String :=
  "text,word,monochrome,cropped,low quality,normal quality,soft line,username,(watermark),(signature),blurry,soft,sketch,ugly,logo,pixelated,lowres,out of frame,cut off,blurry,foggy,reflection"

/-- `buildLocationPrompt` from `server/ScenarioGenerator.ts`. -/
def buildLocationPrompt (userInput : String) : String :=
  "(((isometric))),(Isometric_Setting),(building exterior),((black background)),<lora:Stylized_Setting_SDXL:4>,bright colors," ++
    userInput

/-- `AGENT_MODEL` from `server/ScenarioGenerator.ts`. -/
def AGENT_MODEL : String := "dreamshaperXL_v21TurboDPMSDE.safetensors [4496b36d48]"

/-- `AGENT_NEGATIVE` from `server/ScenarioGenerator.ts`. -/
def AGENT_NEGATIVE : String := "BadDream, UnrealisticDream"

/-- `buildAgentPrompt` from `server/ScenarioGenerator.ts`: fixed style tags,
then the planned physical description, then the pose suffix. -/
def buildAgentPrompt (physicalDescription : String) (stateSuffix : String) : String :=
  "(one person),(painterly),(full body),feet,black background," ++ physicalDescription ++
    "," ++ stateSuffix

/-- Result of a full generation run: all broadcasts in order, the file writes,
the image requests issued, and the caught failure if any.  The run itself
always returns (the source catches every error). -/
structure GenResult where
  broadcasts : List Broadcast
  writes : List (String × FileContent)
  reqs : List ImageRequest
  failed : Option GenFailure
deriving DecidableEq

/-- Sequencing of pipeline stages: a thrown error short-circuits (the JS
`await`/`throw` control flow inside the `try` block). -/
def stageBind {α β : Type} (x : Except (GenFailure × St) (α × St))
    (f : α → St → Except (GenFailure × St) (β × St)) :
    Except (GenFailure × St) (β × St) :=
  match x with
  | Except.error e => Except.error e
  | Except.ok (a, s) => f a s

/-- A plain fallible operation (no state of its own) raised into the pipeline:
a throw is caught with the current state `s`. -/
def liftStage {α : Type} (x : Except GenFailure α) (s : St) :
    Except (GenFailure × St) (α × St) :=
  match x with
  | Except.ok a => Except.ok (a, s)
  | Except.error f => Except.error (f, s)

-- ===========================================================================
-- Scenario generation — server/ScenarioGenerator.ts (44-step snapshot)
-- ===========================================================================

namespace SrcGen

/-- `ScenarioPlan` from `server/ScenarioGenerator.ts`. -/
structure ScenarioPlan where
  id : String
  name : String
  backgroundPrompt : String
  locations : List RawLocation
  agents : List AgentPlan
deriving DecidableEq

/-- `AGENT_STATE_SUFFIXES` from `server/ScenarioGenerator.ts`, an ordered
association list in JS `Object.keys` order; the loop over `AGENT_STATES`
iterates these pairs. -/
def AGENT_STATE_SUFFIXES : List (String × String) :=
  [("idle", "standing relaxed, neutral expression, calm natural pose"),
   ("walking", "mid-stride, walking motion, dynamic movement pose"),
   ("working", "focused and determined, leaning forward, actively working"),
   ("thinking", "contemplative expression, hand on chin, lost in thought"),
   ("finished", "happy and triumphant, satisfied smile, celebratory pose")]

/-- Oracle environment for one run: the OpenAI planning outcome, the outcomes
of each diffusion / background-removal / write call in program order, the
mkdir outcome, the random UUID fragment, and the on-disk catalog (absent,
parsed, or failing to parse). -/
structure GenEnv where
  planOutcome : Except GenFailure ScenarioPlan
  imageOutcome : Nat → Except GenFailure Image
  stripOutcome : Nat → Except GenFailure Image
  writeOutcome : Nat → Except GenFailure Unit
  mkdirOutcome : Except GenFailure Unit
  uuid8 : String
  catalogOnDisk : Option (Except GenFailure Catalog)

/-- `TOTAL` from `server/ScenarioGenerator.ts`: 1 plan + 1 background + 6
locations + 7×5 agent states + 1 save. -/
def TOTAL : Nat := 44

/-- The locations loop: broadcast, diffuse at 768×512 with the location
preset, strip the background, write `locations/<i>.png`. -/
def locLoop (env : GenEnv) (relBase : String) :
    List RawLocation → Nat → St → Except (GenFailure × St) (List String × St)
  | [], _, s => Except.ok ([], s)
  | loc :: rest, i, s =>
    stageBind
      (callImage env.imageOutcome
        ⟨buildLocationPrompt loc.prompt, 768, 512, LOCATION_NEGATIVE, some SHARED_MODEL,
          40, 7⟩
        (emit TOTAL ("Generating location: " ++ loc.name ++ "...") Status.generating s))
      fun _ s2 =>
    stageBind (callStrip env.stripOutcome s2) fun img s3 =>
    stageBind
      (callWrite env.writeOutcome (relBase ++ "/locations/" ++ toString i ++ ".png")
        (FileContent.image img) s3)
      fun _ s4 =>
    stageBind (locLoop env relBase rest (i + 1) s4) fun paths s5 =>
    Except.ok ((relBase ++ "/locations/" ++ toString i ++ ".png") :: paths, s5)

/-- The per-agent pose loop: for each `(stateName, suffix)` pair of
`AGENT_STATE_SUFFIXES`, broadcast, diffuse `buildAgentPrompt(desc, suffix)` at
768×1344 with the agent preset, strip, write `agents/<i>/<stateName>.png`,
and record the `states[stateName]` path. -/
def stateLoop (env : GenEnv) (relBase : String) (agentIdx : Nat) (agentName : String)
    (desc : String) :
    List (String × String) → St → Except (GenFailure × St) (List (String × String) × St)
  | [], s => Except.ok ([], s)
  | (stName, suffix) :: rest, s =>
    stageBind
      (callImage env.imageOutcome
        ⟨buildAgentPrompt desc suffix, 768, 1344, AGENT_NEGATIVE, some AGENT_MODEL, 40, 7⟩
        (emit TOTAL ("Generating " ++ agentName ++ " (" ++ stName ++ ")...")
          Status.generating s))
      fun _ s2 =>
    stageBind (callStrip env.stripOutcome s2) fun img s3 =>
    stageBind
      (callWrite env.writeOutcome
        (relBase ++ "/agents/" ++ toString agentIdx ++ "/" ++ stName ++ ".png")
        (FileContent.image img) s3)
      fun _ s4 =>
    stageBind (stateLoop env relBase agentIdx agentName desc rest s4) fun states s5 =>
    Except.ok
      ((stName, relBase ++ "/agents/" ++ toString agentIdx ++ "/" ++ stName ++ ".png")
        :: states, s5)

/-- The agents loop: one `stateLoop` pass per planned agent. -/
def agentLoop (env : GenEnv) (relBase : String) :
    List AgentPlan → Nat → St → Except (GenFailure × St) (List AgentCfg × St)
  | [], _, s => Except.ok ([], s)
  | agent :: rest, i, s =>
    stageBind
      (stateLoop env relBase i agent.name agent.physicalDescription
        AGENT_STATE_SUFFIXES s)
      fun states s1 =>
    stageBind (agentLoop env relBase rest (i + 1) s1) fun cfgs s2 =>
    Except.ok (AgentCfg.mk states :: cfgs, s2)

/-- The `try` block of `generateScenario` (44-step snapshot): plan, make the
asset directories, generate the background (no background removal there), the
locations, the agents, then compute and write the catalog; returns the plan
name for the final broadcast.  The source computes `id` and `relBase` once;
being pure string values they are inlined at each use here. -/
def pipeline (env : GenEnv) : Except (GenFailure × St) (String × St) :=
  stageBind
    (liftStage env.planOutcome
      (emit TOTAL "Planning scenario with OpenAI..." Status.planning initSt))
    fun plan s1 =>
  stageBind (liftStage env.mkdirOutcome s1) fun _ s1b =>
  stageBind
    (callImage env.imageOutcome
      ⟨buildBackgroundPrompt plan.backgroundPrompt, 2048, 1024, BACKGROUND_NEGATIVE,
        some SHARED_MODEL, 40, 7⟩
      (emit TOTAL "Generating background..." Status.generating s1b))
    fun bgImage s3 =>
  stageBind
    (callWrite env.writeOutcome
      ("assets/generated/" ++ plan.id ++ "_" ++ env.uuid8 ++ "/scenario/background.png")
      (FileContent.image bgImage) s3)
    fun _ s4 =>
  stageBind
    (locLoop env ("assets/generated/" ++ plan.id ++ "_" ++ env.uuid8) plan.locations 0 s4)
    fun locationPaths s5 =>
  stageBind
    (agentLoop env ("assets/generated/" ++ plan.id ++ "_" ++ env.uuid8) plan.agents 0 s5)
    fun agentConfigs s6 =>
  stageBind
    (liftStage
      (savedCatalog env.catalogOnDisk
        ⟨plan.id ++ "_" ++ env.uuid8, plan.name,
          "assets/generated/" ++ plan.id ++ "_" ++ env.uuid8 ++ "/scenario/background.png",
          locationPaths, agentConfigs⟩)
      (emit TOTAL "Saving scenario..." Status.saving s6))
    fun cat s7 =>
  stageBind (callWrite env.writeOutcome "scenarios.json" (FileContent.catalog cat) s7)
    fun _ s8 =>
  Except.ok (plan.name, s8)

/-- `generateScenario` from `server/ScenarioGenerator.ts` (44-step snapshot):
runs the pipeline and, like the source's try/catch, converts any failure into
one final `error` broadcast at the step counter reached —
`broadcast(step, TOTAL, message + cause, 'error', message + cause)` — and
returns normally either way; on success the final broadcast is
`broadcast(TOTAL, TOTAL, '"<name>" is ready!', 'complete')`. -/
def generateScenarioRun (env : GenEnv) : GenResult :=
  match pipeline env with
  | Except.ok (planName, s) =>
    ⟨s.brds ++ [⟨TOTAL, TOTAL, "\"" ++ planName ++ "\" is ready!", Status.complete, none⟩],
     s.writes, s.reqs, none⟩
  | Except.error (f, s) =>
    ⟨s.brds ++ [⟨s.step, TOTAL, failureText f, Status.error, some (failureText f)⟩],
     s.writes, s.reqs, some f⟩

end SrcGen

-- ===========================================================================
-- Scenario generation — newest pipeline (49 steps), spec-modelled
-- ===========================================================================

/-- A planner shape-check failure raised as a JS `Error`: message only, no
cause. -/
def liftPlannerError {β : Type} : Except String β → Except GenFailure β
  | Except.ok b => Except.ok b
  | Except.error m => Except.error ⟨m, none⟩

namespace SpecGen

/-- Modelled from the spec: the pose suffix table of the newest generator
snapshot (spec §4.4, "Pose suffix table (fixed vocabulary appended to the
agent prompt)").  That snapshot is missing from the given sources — only its
callee `server/ScenarioPlanner.ts` is present. -/
def AGENT_STATE_SUFFIXES : List (String × String) :=
  [("idle", "standing natural"),
   ("walking", "running"),
   ("working", "focused, staring at hands, scowling"),
   ("thinking", "head in hands, confused"),
   ("finished", "triumphant, fist pump, cheering")]

/-- Modelled from the spec: the newest snapshot's agent negative-prompt preset
("a longer negative-prompt preset targeting multi-figure/cropped defects");
its exact text is not given by the spec and no claim depends on it. -/
def AGENT_NEGATIVE_SPEC : String := "multiple people, cropped, out of frame"

/-- Modelled from the spec: oracle environment for one run of the newest
pipeline — outcomes of `planMeta` and of the HTTP/parse stage of
`planLocations` / `planAgents` (whose shape checks are the source functions
above), of each diffusion / background-removal / write call in program order,
the mkdir outcome, the UUID fragment, and the on-disk catalog. -/
structure GenEnv where
  metaCall : Except GenFailure ScenarioMeta
  locsCall : Except GenFailure (Option (List RawLocation))
  agentsCall : Except GenFailure (Option (List AgentPlan))
  imageOutcome : Nat → Except GenFailure Image
  stripOutcome : Nat → Except GenFailure Image
  writeOutcome : Nat → Except GenFailure Unit
  mkdirOutcome : Except GenFailure Unit
  uuid8 : String
  catalogOnDisk : Option (Except GenFailure Catalog)

/-- Modelled from the spec: total step count, fixed at 49 = 3 planning + 1
background + 9 locations + 7×5 agent poses + 1 save. -/
def TOTAL : Nat := 49

/-- The diffusion request for one location (spec §4.4 step 5: 768×512,
location prompt template and negative preset, shared model, 40 steps,
cfg 7). -/
def locationRequest (l : LocationPlan) : ImageRequest :=
  ⟨buildLocationPrompt l.prompt, 768, 512, LOCATION_NEGATIVE, some SHARED_MODEL, 40, 7⟩

/-- The diffusion request for one agent pose (spec §4.4 step 6: 832×1344, the
agent prompt template combining the planned physical description with the
fixed pose suffix, dedicated character model, 50 steps, cfg 7). -/
def agentRequest (desc : String) (suffix : String) : ImageRequest :=
  ⟨buildAgentPrompt desc suffix, 832, 1344, AGENT_NEGATIVE_SPEC, some AGENT_MODEL, 50, 7⟩

/-- The diffusion request for the background (spec §4.4 step 4: 2048×1024,
background prompt template and negative preset, shared model, 40 steps,
cfg 7). -/
def backgroundRequest (meta : ScenarioMeta) : ImageRequest :=
  ⟨buildBackgroundPrompt meta.backgroundPrompt, 2048, 1024, BACKGROUND_NEGATIVE,
    some SHARED_MODEL, 40, 7⟩

/-- Modelled from the spec: the locations loop (steps 5–13): broadcast,
diffuse, strip the background, write `locations/<i>.png`. -/
def locLoop (env : GenEnv) (relBase : String) :
    List LocationPlan → Nat → St → Except (GenFailure × St) (List String × St)
  | [], _, s => Except.ok ([], s)
  | loc :: rest, i, s =>
    stageBind
      (callImage env.imageOutcome (locationRequest loc)
        (emit TOTAL ("Generating location: " ++ loc.name ++ "...") Status.generating s))
      fun _ s2 =>
    stageBind (callStrip env.stripOutcome s2) fun img s3 =>
    stageBind
      (callWrite env.writeOutcome (relBase ++ "/locations/" ++ toString i ++ ".png")
        (FileContent.image img) s3)
      fun _ s4 =>
    stageBind (locLoop env relBase rest (i + 1) s4) fun paths s5 =>
    Except.ok ((relBase ++ "/locations/" ++ toString i ++ ".png") :: paths, s5)

/-- Modelled from the spec: the per-agent pose loop — for each
`(stateName, suffix)` pair of the pose table, broadcast, diffuse the planned
physical description with that suffix appended, strip, write
`agents/<i>/<stateName>.png`. -/
def stateLoop (env : GenEnv) (relBase : String) (agentIdx : Nat) (agentName : String)
    (desc : String) :
    List (String × String) → St → Except (GenFailure × St) (List (String × String) × St)
  | [], s => Except.ok ([], s)
  | (stName, suffix) :: rest, s =>
    stageBind
      (callImage env.imageOutcome (agentRequest desc suffix)
        (emit TOTAL ("Generating " ++ agentName ++ " (" ++ stName ++ ")...")
          Status.generating s))
      fun _ s2 =>
    stageBind (callStrip env.stripOutcome s2) fun img s3 =>
    stageBind
      (callWrite env.writeOutcome
        (relBase ++ "/agents/" ++ toString agentIdx ++ "/" ++ stName ++ ".png")
        (FileContent.image img) s3)
      fun _ s4 =>
    stageBind (stateLoop env relBase agentIdx agentName desc rest s4) fun states s5 =>
    Except.ok
      ((stName, relBase ++ "/agents/" ++ toString agentIdx ++ "/" ++ stName ++ ".png")
        :: states, s5)

/-- Modelled from the spec: the agents loop (steps 14–48, five per agent). -/
def agentLoop (env : GenEnv) (relBase : String) :
    List AgentPlan → Nat → St → Except (GenFailure × St) (List AgentCfg × St)
  | [], _, s => Except.ok ([], s)
  | agent :: rest, i, s =>
    stageBind
      (stateLoop env relBase i agent.name agent.physicalDescription
        AGENT_STATE_SUFFIXES s)
      fun states s1 =>
    stageBind (agentLoop env relBase rest (i + 1) s1) fun cfgs s2 =>
    Except.ok (AgentCfg.mk states :: cfgs, s2)

/-- Modelled from the spec (§4.4): the `try` block of the newest
`generateScenario` — `planMeta`, `planLocations`, `planAgents` in sequence,
each preceded by a `planning` broadcast (steps 1–3); directory creation; the
background (step 4, no background removal); the 9 locations (steps 5–13); the
7×5 agent poses (steps 14–48); the catalog save (step 49).  As in the
44-step source, pure string values (`id`, `relBase`) are inlined at each
use. -/
def pipeline (env : GenEnv) : Except (GenFailure × St) (String × St) :=
  stageBind
    (liftStage env.metaCall
      (emit TOTAL "Planning scenario metadata..." Status.planning initSt))
    fun meta s1 =>
  stageBind
    (liftStage env.locsCall
      (emit TOTAL "Planning locations..." Status.planning s1))
    fun parsedLocs s2 =>
  stageBind (liftStage (liftPlannerError (planLocations parsedLocs)) s2) fun locPlans s2b =>
  stageBind
    (liftStage env.agentsCall
      (emit TOTAL "Planning agents..." Status.planning s2b))
    fun parsedAgents s3 =>
  stageBind (liftStage (liftPlannerError (planAgents parsedAgents)) s3) fun agentPlans s3b =>
  stageBind (liftStage env.mkdirOutcome s3b) fun _ s3c =>
  stageBind
    (callImage env.imageOutcome (backgroundRequest meta)
      (emit TOTAL "Generating background..." Status.generating s3c))
    fun bgImage s4 =>
  stageBind
    (callWrite env.writeOutcome
      ("assets/generated/" ++ meta.id ++ "_" ++ env.uuid8 ++ "/scenario/background.png")
      (FileContent.image bgImage) s4)
    fun _ s4b =>
  stageBind
    (locLoop env ("assets/generated/" ++ meta.id ++ "_" ++ env.uuid8) locPlans 0 s4b)
    fun locationPaths s5 =>
  stageBind
    (agentLoop env ("assets/generated/" ++ meta.id ++ "_" ++ env.uuid8) agentPlans 0 s5)
    fun agentConfigs s6 =>
  stageBind
    (liftStage
      (savedCatalog env.catalogOnDisk
        ⟨meta.id ++ "_" ++ env.uuid8, meta.name,
          "assets/generated/" ++ meta.id ++ "_" ++ env.uuid8 ++ "/scenario/background.png",
          locationPaths, agentConfigs⟩)
      (emit TOTAL "Saving scenario..." Status.saving s6))
    fun cat s7 =>
  stageBind (callWrite env.writeOutcome "scenarios.json" (FileContent.catalog cat) s7)
    fun _ s8 =>
  Except.ok (meta.name, s8)

/-- Modelled from the spec: the newest `generateScenario` — runs the 49-step
pipeline, converts any failure into one final `error` broadcast at the step
counter reached, and on success broadcasts `complete` at step 49 of 49. -/
def generateScenarioRun (env : GenEnv) : GenResult :=
  match pipeline env with
  | Except.ok (planName, s) =>
    ⟨s.brds ++ [⟨TOTAL, TOTAL, "\"" ++ planName ++ "\" is ready!", Status.complete, none⟩],
     s.writes, s.reqs, none⟩
  | Except.error (f, s) =>
    ⟨s.brds ++ [⟨s.step, TOTAL, failureText f, Status.error, some (failureText f)⟩],
     s.writes, s.reqs, some f⟩

end SpecGen

-- ===========================================================================
-- Verification predicates for the pipelines
-- ===========================================================================

/-- Run invariant: the step counter equals the number of broadcasts made so
far, and none of them carries the error status. -/
def StInv (s : St) : Prop :=
  s.step = s.brds.length ∧ ∀ b ∈ s.brds, b.status ≠ Status.error

/-- Both possible outcomes of a pipeline stage carry a state satisfying the
run invariant. -/
def StageInv {α : Type} : Except (GenFailure × St) (α × St) → Prop
  | Except.ok (_, s) => StInv s
  | Except.error (_, s) => StInv s

-- ===========================================================================
-- THEOREMS
-- ===========================================================================

/-- Association-list lookup returns `none` when the key matches no entry. -/
theorem lookupNoneOfNotMem {β : Type} :
    ∀ (l : List (String × β)) (k : String), (∀ p ∈ l, k ≠ p.1) → l.lookup k = none := by
  intro l
  induction l with
  | nil => intro k _; rfl
  | cons p rest ih =>
    intro k h
    have h1 : k ≠ p.1 := h p (by simp)
    have h2 : ∀ q ∈ rest, k ≠ q.1 := fun q hq => h q (by simp [hq])
    obtain ⟨a, b⟩ := p
    have hne : (k == a) = false := by
      simpa [beq_eq_false_iff_ne] using h1
    simp [List.lookup, hne, ih k h2]

/-- C6: `getLocationForTool` returns, for every tool name in the fixed table,
exactly the listed member of the nine-member `VillageLocationType` set
(Read→library, Write→cottage, NotebookEdit→cottage, Edit→workshop,
Bash→terminal, Grep→observatory, Glob→observatory, WebFetch→signal_tower,
WebSearch→signal_tower, Task→town_hall, TodoWrite→notice_board,
AskUserQuestion→square), and returns `square` for every tool name that is not a
key of the table. -/
theorem C6_tool_location_table :
    (getLocationForTool "Read" = VillageLocationType.library ∧
     getLocationForTool "Write" = VillageLocationType.cottage ∧
     getLocationForTool "NotebookEdit" = VillageLocationType.cottage ∧
     getLocationForTool "Edit" = VillageLocationType.workshop ∧
     getLocationForTool "Bash" = VillageLocationType.terminal ∧
     getLocationForTool "Grep" = VillageLocationType.observatory ∧
     getLocationForTool "Glob" = VillageLocationType.observatory ∧
     getLocationForTool "WebFetch" = VillageLocationType.signal_tower ∧
     getLocationForTool "WebSearch" = VillageLocationType.signal_tower ∧
     getLocationForTool "Task" = VillageLocationType.town_hall ∧
     getLocationForTool "TodoWrite" = VillageLocationType.notice_board ∧
     getLocationForTool "AskUserQuestion" = VillageLocationType.square) ∧
    ∀ tool : String, tool ∉ TOOL_TO_LOCATION.map Prod.fst →
      getLocationForTool tool = VillageLocationType.square := by
  refine ⟨⟨rfl, rfl, rfl, rfl, rfl, rfl, rfl, rfl, rfl, rfl, rfl, rfl⟩, ?_⟩
  intro tool h
  have hk : ∀ p ∈ TOOL_TO_LOCATION, tool ≠ p.1 := by
    intro p hp he
    exact h (List.mem_map.mpr ⟨p, hp, he.symm⟩)
  unfold getLocationForTool
  rw [lookupNoneOfNotMem _ _ hk]
  rfl

/-- C6 witness: a tool name outside the table maps to `square`. -/
theorem C6_tool_location_table_witness :
    ("SomeUnknownTool" ∉ TOOL_TO_LOCATION.map Prod.fst) ∧
      getLocationForTool "SomeUnknownTool" = VillageLocationType.square :=
  ⟨by decide, C6_tool_location_table.2 "SomeUnknownTool" (by decide)⟩

/-- C8: dispatching `MOVE_TO_LOCATION` whose target equals the character's
current location returns the input state itself (in the source, the very same
object reference, here the same value); when the target differs, the reducer
shifts the current location into `previousLocation`, sets the target as the new
`location` with `isMoving = true`, and sets `activeLocation` to the target. -/
theorem C8_move_to_location :
    (∀ (s : VillageState) (l : VillageLocationType), l = s.character.location →
        villageReducer s (VillageAction.MOVE_TO_LOCATION l) = s) ∧
    (∀ (s : VillageState) (l : VillageLocationType), l ≠ s.character.location →
        villageReducer s (VillageAction.MOVE_TO_LOCATION l) =
          { s with
            character :=
              { s.character with
                previousLocation := some s.character.location
                location := l
                isMoving := true }
            activeLocation := some l }) := by
  constructor
  · intro s l h
    simp [villageReducer, h]
  · intro s l h
    simp [villageReducer, h]

/-- C8 witness: a no-op move from `square` to `square` leaves the initial state
unchanged, and a move to `library` performs the three field updates. -/
theorem C8_move_to_location_witness :
    (VillageLocationType.square = initialState.character.location ∧
      villageReducer initialState (VillageAction.MOVE_TO_LOCATION VillageLocationType.square) =
        initialState) ∧
    (VillageLocationType.library ≠ initialState.character.location ∧
      villageReducer initialState (VillageAction.MOVE_TO_LOCATION VillageLocationType.library) =
        { initialState with
          character :=
            { initialState.character with
              previousLocation := some initialState.character.location
              location := VillageLocationType.library
              isMoving := true }
          activeLocation := some VillageLocationType.library }) :=
  ⟨⟨rfl, C8_move_to_location.1 initialState VillageLocationType.square rfl⟩,
   ⟨by decide, C8_move_to_location.2 initialState VillageLocationType.library (by decide)⟩⟩

/-- C9: `SET_ZOOM` stores `max 0.5 (min 2 payload)`, so inputs 0, 0.5, 1, 2 and
5 yield stored zoom values 0.5, 0.5, 1, 2 and 2; the stored zoom always lies in
the closed interval `[0.5, 2]`, and the initial zoom is 1. -/
theorem C9_set_zoom_clamp :
    (∀ (s : VillageState) (z : ℚ),
        (villageReducer s (VillageAction.SET_ZOOM z)).zoom = max 0.5 (min 2 z)) ∧
    (∀ s : VillageState,
        (villageReducer s (VillageAction.SET_ZOOM 0)).zoom = 0.5 ∧
        (villageReducer s (VillageAction.SET_ZOOM 0.5)).zoom = 0.5 ∧
        (villageReducer s (VillageAction.SET_ZOOM 1)).zoom = 1 ∧
        (villageReducer s (VillageAction.SET_ZOOM 2)).zoom = 2 ∧
        (villageReducer s (VillageAction.SET_ZOOM 5)).zoom = 2) ∧
    (∀ (s : VillageState) (z : ℚ),
        0.5 ≤ (villageReducer s (VillageAction.SET_ZOOM z)).zoom ∧
        (villageReducer s (VillageAction.SET_ZOOM z)).zoom ≤ 2) ∧
    initialState.zoom = 1 := by
  refine ⟨fun s z => rfl, fun s => ?_, fun s z => ?_, rfl⟩
  · refine ⟨?_, ?_, ?_, ?_, ?_⟩ <;> norm_num [villageReducer, min_def, max_def]
  · have hz : (villageReducer s (VillageAction.SET_ZOOM z)).zoom = max 0.5 (min 2 z) := rfl
    rw [hz]
    constructor
    · exact le_max_left _ _
    · exact max_le (by norm_num) (min_le_left _ _)

/-- C10: the village reducer is total and closed over unknown inputs: for
every state and every action whose `type` tag is not one of the eleven defined
kinds (modelled by the `UNKNOWN` constructor standing for the reducer's
`default` branch), it returns the input state unchanged; being a total Lean
function, it never throws. -/
theorem C10_reducer_default_total :
    ∀ (s : VillageState) (ty : String),
      villageReducer s (VillageAction.UNKNOWN ty) = s :=
  fun _ _ => rfl

/-- C7: `computeVillageLayout` is a pure function of the ordered location list
and the game-window size (equal inputs give equal outputs), and for any
positive window size and 9 locations the result consists of three rows of
exactly 3 entries at three strictly increasing y values: the first row at
`0.12·height`, each subsequent row one `locationHeight = height/4.5` lower,
and the middle row shifted right by half a cell width. -/
theorem C7_layout_deterministic_nine_rows {α : Type} (xs : List α) (g : GameWindowSize)
    (h9 : xs.length = 9) (hw : 0 < g.width) (hh : 0 < g.height) :
    (∀ (ys : List α) (g2 : GameWindowSize),
        computeVillageLayout ys g2 = computeVillageLayout ys g2) ∧
    layoutNineRows xs g := by
  refine ⟨fun ys g2 => rfl, ?_⟩
  rcases xs with _ | ⟨a, _ | ⟨b, _ | ⟨c, _ | ⟨d, _ | ⟨e, _ | ⟨f, _ | ⟨p, _ | ⟨q, _ | ⟨r, tl⟩⟩⟩⟩⟩⟩⟩⟩⟩ <;>
    simp only [List.length_cons, List.length_nil] at h9 <;> try omega
  have htl : tl = [] := by
    have : tl.length = 0 := by omega
    exact List.length_eq_zero.mp this
  subst htl
  have hq : (0 : ℚ) < g.height / 4.5 := by positivity
  refine ⟨rfl, rfl, rfl, by linarith, by linarith⟩

/-- C7 witness: the nine-row layout shape on a concrete 9-element list and the
2048×1024 reference window. -/
theorem C7_layout_witness :
    (([0, 1, 2, 3, 4, 5, 6, 7, 8] : List ℕ).length = 9 ∧
      (0 : ℚ) < (⟨2048, 1024⟩ : GameWindowSize).width ∧
      (0 : ℚ) < (⟨2048, 1024⟩ : GameWindowSize).height) ∧
    layoutNineRows ([0, 1, 2, 3, 4, 5, 6, 7, 8] : List ℕ) ⟨2048, 1024⟩ :=
  ⟨⟨rfl, by norm_num, by norm_num⟩,
   (C7_layout_deterministic_nine_rows [0, 1, 2, 3, 4, 5, 6, 7, 8] ⟨2048, 1024⟩ rfl
      (by norm_num) (by norm_num)).2⟩

/-- C2: `planLocations` succeeds exactly when the planning service returned an
array of 9 location entries — pairing them with the fixed station roles in
canonical order — and fails with a data-shape error naming the expected count
(9) and the actual count otherwise (0 when the field is missing or not an
array); `planAgents` analogously succeeds exactly on 7 entries and otherwise
fails naming expected (7) and actual. -/
theorem C2_planner_shape_enforcement :
    (∀ locs : List RawLocation, locs.length ≠ 9 →
        planLocations (some locs) =
          Except.error ("planLocations: expected 9 locations, got " ++ toString locs.length)) ∧
    planLocations none = Except.error "planLocations: expected 9 locations, got 0" ∧
    (∀ locs : List RawLocation, locs.length = 9 →
        planLocations (some locs) = Except.ok (assignStationRoles 0 locs) ∧
        (assignStationRoles 0 locs).map (fun l => l.stationType) =
          STATION_ROLES.map (fun r => r.type) ∧
        (assignStationRoles 0 locs).map (fun l => l.name) = locs.map (fun l => l.name) ∧
        (assignStationRoles 0 locs).map (fun l => l.prompt) = locs.map (fun l => l.prompt)) ∧
    (∀ ags : List AgentPlan, ags.length ≠ 7 →
        planAgents (some ags) =
          Except.error ("planAgents: expected 7 agents, got " ++ toString ags.length)) ∧
    planAgents none = Except.error "planAgents: expected 7 agents, got 0" ∧
    (∀ ags : List AgentPlan, ags.length = 7 → planAgents (some ags) = Except.ok ags) := by
  refine ⟨?_, rfl, ?_, ?_, rfl, ?_⟩
  · intro locs h
    simp [planLocations, h]
  · intro locs h
    rcases locs with _ | ⟨a, _ | ⟨b, _ | ⟨c, _ | ⟨d, _ | ⟨e, _ | ⟨f, _ | ⟨p, _ | ⟨q, _ | ⟨r, tl⟩⟩⟩⟩⟩⟩⟩⟩⟩ <;>
      simp only [List.length_cons, List.length_nil] at h <;> try omega
    have htl : tl = [] := by
      have : tl.length = 0 := by omega
      exact List.length_eq_zero.mp this
    subst htl
    exact ⟨rfl, rfl, rfl, rfl⟩
  · intro ags h
    simp [planAgents, h]
  · intro ags h
    simp [planAgents, h]

/-- C2 witness: concrete instances — an empty locations array fails naming 9
vs 0, a 9-entry array succeeds in canonical station order, an empty agents
array fails naming 7 vs 0, and a 7-entry agents array succeeds. -/
theorem C2_planner_shape_witness :
    (([] : List RawLocation).length ≠ 9 ∧
      planLocations (some ([] : List RawLocation)) =
        Except.error ("planLocations: expected 9 locations, got " ++
          toString ([] : List RawLocation).length)) ∧
    ((List.replicate 9 (⟨"Hall", "a hall"⟩ : RawLocation)).length = 9 ∧
      (assignStationRoles 0 (List.replicate 9 ⟨"Hall", "a hall"⟩)).map
          (fun l => l.stationType) =
        STATION_ROLES.map (fun r => r.type)) ∧
    (([] : List AgentPlan).length ≠ 7 ∧
      planAgents (some ([] : List AgentPlan)) =
        Except.error ("planAgents: expected 7 agents, got " ++
          toString ([] : List AgentPlan).length)) ∧
    ((List.replicate 7 (⟨"Ava", "tall"⟩ : AgentPlan)).length = 7 ∧
      planAgents (some (List.replicate 7 ⟨"Ava", "tall"⟩)) =
        Except.ok (List.replicate 7 ⟨"Ava", "tall"⟩)) :=
  ⟨⟨by decide, C2_planner_shape_enforcement.1 [] (by decide)⟩,
   ⟨by simp, (C2_planner_shape_enforcement.2.2.1 (List.replicate 9 ⟨"Hall", "a hall"⟩)
      (by simp)).2.1⟩,
   ⟨by decide, C2_planner_shape_enforcement.2.2.2.1 [] (by decide)⟩,
   ⟨by simp, C2_planner_shape_enforcement.2.2.2.2.2 (List.replicate 7 ⟨"Ava", "tall"⟩)
      (by simp)⟩⟩

theorem stInvInit : StInv initSt := by
  constructor
  · rfl
  · intro b hb
    simp [initSt] at hb

theorem stInvOfFields (s s2 : St) (hstep : s2.step = s.step) (hbrds : s2.brds = s.brds)
    (h : StInv s) : StInv s2 := by
  unfold StInv at h ⊢
  rw [hstep, hbrds]
  exact h

theorem stInvEmit (t : Nat) (m : String) (st : Status) (s : St) (h : StInv s)
    (hst : st ≠ Status.error) : StInv (emit t m st s) := by
  obtain ⟨h1, h2⟩ := h
  constructor
  · simp [emit, h1]
  · intro b hb
    simp only [emit, List.mem_append, List.mem_singleton] at hb
    rcases hb with hb | hb
    · exact h2 b hb
    · subst hb
      simpa using hst

theorem stageInvCallImage (o : Nat → Except GenFailure Image) (req : ImageRequest)
    (s : St) (h : StInv s) : StageInv (callImage o req s) := by
  unfold callImage
  cases h2 : o s.nImg with
  | ok i =>
    simp only
    exact stInvOfFields s _ rfl rfl h
  | error f =>
    simp only
    exact stInvOfFields s _ rfl rfl h

theorem stageInvCallStrip (o : Nat → Except GenFailure Image) (s : St) (h : StInv s) :
    StageInv (callStrip o s) := by
  unfold callStrip
  cases h2 : o s.nStrip with
  | ok i =>
    simp only
    exact stInvOfFields s _ rfl rfl h
  | error f =>
    simp only
    exact stInvOfFields s _ rfl rfl h

theorem stageInvCallWrite (w : Nat → Except GenFailure Unit) (path : String)
    (content : FileContent) (s : St) (h : StInv s) :
    StageInv (callWrite w path content s) := by
  unfold callWrite
  cases h2 : w s.nWrite with
  | ok u =>
    simp only
    exact stInvOfFields s _ rfl rfl h
  | error f =>
    simp only
    exact stInvOfFields s _ rfl rfl h

theorem stageInvLift {α : Type} (x : Except GenFailure α) (s : St) (h : StInv s) :
    StageInv (liftStage x s) := by
  unfold liftStage
  cases x with
  | ok a => exact h
  | error f => exact h

theorem stageInvBind {α β : Type} {x : Except (GenFailure × St) (α × St)}
    {f : α → St → Except (GenFailure × St) (β × St)} (hx : StageInv x)
    (hf : ∀ a s, StInv s → StageInv (f a s)) : StageInv (stageBind x f) := by
  unfold stageBind
  cases x with
  | error e => exact hx
  | ok p =>
    obtain ⟨a, s⟩ := p
    exact hf a s hx

theorem stageInvSrcLocLoop (env : SrcGen.GenEnv) (rel : String) :
    ∀ (locs : List RawLocation) (i : Nat) (s : St), StInv s →
      StageInv (SrcGen.locLoop env rel locs i s) := by
  intro locs
  induction locs with
  | nil =>
    intro i s h
    exact h
  | cons loc rest ih =>
    intro i s h
    unfold SrcGen.locLoop
    refine stageInvBind (stageInvCallImage _ _ _ (stInvEmit _ _ _ _ h (by decide))) ?_
    intro _ s2 h2
    refine stageInvBind (stageInvCallStrip _ _ h2) ?_
    intro img s3 h3
    refine stageInvBind (stageInvCallWrite _ _ _ _ h3) ?_
    intro _ s4 h4
    refine stageInvBind (ih (i + 1) s4 h4) ?_
    intro paths s5 h5
    exact h5

theorem stageInvSrcStateLoop (env : SrcGen.GenEnv) (rel : String) (agentIdx : Nat)
    (agentName : String) (desc : String) :
    ∀ (pairs : List (String × String)) (s : St), StInv s →
      StageInv (SrcGen.stateLoop env rel agentIdx agentName desc pairs s) := by
  intro pairs
  induction pairs with
  | nil =>
    intro s h
    exact h
  | cons pr rest ih =>
    intro s h
    obtain ⟨stName, suffix⟩ := pr
    unfold SrcGen.stateLoop
    refine stageInvBind (stageInvCallImage _ _ _ (stInvEmit _ _ _ _ h (by decide))) ?_
    intro _ s2 h2
    refine stageInvBind (stageInvCallStrip _ _ h2) ?_
    intro img s3 h3
    refine stageInvBind (stageInvCallWrite _ _ _ _ h3) ?_
    intro _ s4 h4
    refine stageInvBind (ih s4 h4) ?_
    intro states s5 h5
    exact h5

theorem stageInvSrcAgentLoop (env : SrcGen.GenEnv) (rel : String) :
    ∀ (ags : List AgentPlan) (i : Nat) (s : St), StInv s →
      StageInv (SrcGen.agentLoop env rel ags i s) := by
  intro ags
  induction ags with
  | nil =>
    intro i s h
    exact h
  | cons agent rest ih =>
    intro i s h
    unfold SrcGen.agentLoop
    refine stageInvBind (stageInvSrcStateLoop env rel i agent.name agent.physicalDescription
      SrcGen.AGENT_STATE_SUFFIXES s h) ?_
    intro states s1 h1
    refine stageInvBind (ih (i + 1) s1 h1) ?_
    intro cfgs s2 h2
    exact h2

theorem stageInvSrcPipeline (env : SrcGen.GenEnv) : StageInv (SrcGen.pipeline env) := by
  unfold SrcGen.pipeline
  refine stageInvBind (stageInvLift _ _ (stInvEmit _ _ _ _ stInvInit (by decide))) ?_
  intro plan s1 h1
  refine stageInvBind (stageInvLift _ _ h1) ?_
  intro _ s1b h1b
  refine stageInvBind (stageInvCallImage _ _ _ (stInvEmit _ _ _ _ h1b (by decide))) ?_
  intro bgImage s3 h3
  refine stageInvBind (stageInvCallWrite _ _ _ _ h3) ?_
  intro _ s4 h4
  refine stageInvBind (stageInvSrcLocLoop env _ plan.locations 0 s4 h4) ?_
  intro locationPaths s5 h5
  refine stageInvBind (stageInvSrcAgentLoop env _ plan.agents 0 s5 h5) ?_
  intro agentConfigs s6 h6
  refine stageInvBind (stageInvLift _ _ (stInvEmit _ _ _ _ h6 (by decide))) ?_
  intro cat s7 h7
  refine stageInvBind (stageInvCallWrite _ _ _ _ h7) ?_
  intro _ s8 h8
  exact h8

theorem stageBindOkIff {α β : Type} (x : Except (GenFailure × St) (α × St))
    (f : α → St → Except (GenFailure × St) (β × St)) (b : β) (s2 : St) :
    stageBind x f = Except.ok (b, s2) ↔
      ∃ a s, x = Except.ok (a, s) ∧ f a s = Except.ok (b, s2) := by
  unfold stageBind
  cases x with
  | error e => simp
  | ok p =>
    obtain ⟨a, s⟩ := p
    simp only [Except.ok.injEq, Prod.mk.injEq]
    constructor
    · intro h
      exact ⟨a, s, ⟨rfl, rfl⟩, h⟩
    · rintro ⟨a1, s1, ⟨ha, hs⟩, hf⟩
      subst ha
      subst hs
      exact hf

/-- C3: for every failure raised at any step of the pipeline (planning,
directory creation, image diffusion, background removal, file writes, catalog
parse at save time), `generateScenario` stops the remaining pipeline and emits
exactly one broadcast with status `error`, as the very last broadcast, whose
`step` equals the step counter reached at the failure (the number of progress
broadcasts made so far, not the total), whose message and error field carry
the failure message plus the underlying cause when present; the run returns a
result normally (the embedding is a total function — nothing propagates). -/
theorem C3_error_broadcast (env : SrcGen.GenEnv) (f : GenFailure)
    (h : (SrcGen.generateScenarioRun env).failed = some f) :
    ∃ prog : List Broadcast,
      (SrcGen.generateScenarioRun env).broadcasts =
        prog ++ [⟨prog.length, SrcGen.TOTAL, failureText f, Status.error,
          some (failureText f)⟩] ∧
      ∀ b ∈ prog, b.status ≠ Status.error := by
  have hinv := stageInvSrcPipeline env
  unfold SrcGen.generateScenarioRun at h ⊢
  cases hp : SrcGen.pipeline env with
  | ok p =>
    obtain ⟨nm, s⟩ := p
    simp only [hp] at h
    cases h
  | error e =>
    obtain ⟨f2, s⟩ := e
    rw [hp] at hinv
    have hs : StInv s := hinv
    simp only [hp] at h ⊢
    have hf : f2 = f := by
      cases h
      rfl
    subst hf
    refine ⟨s.brds, ?_, hs.2⟩
    rw [hs.1]

/-- Concrete environment whose OpenAI planning call fails. -/
def envPlanFail : SrcGen.GenEnv :=
  { planOutcome := Except.error ⟨"OpenAI error 500: boom", none⟩
    imageOutcome := fun _ => Except.ok ⟨"png"⟩
    stripOutcome := fun _ => Except.ok ⟨"png"⟩
    writeOutcome := fun _ => Except.ok ()
    mkdirOutcome := Except.ok ()
    uuid8 := "deadbeef"
    catalogOnDisk := none }

/-- C3 witness: a failing planning call yields a run whose final broadcast is
the single error broadcast at the step counter reached. -/
theorem C3_error_broadcast_witness :
    (SrcGen.generateScenarioRun envPlanFail).failed =
        some ⟨"OpenAI error 500: boom", none⟩ ∧
      ∃ prog : List Broadcast,
        (SrcGen.generateScenarioRun envPlanFail).broadcasts =
          prog ++ [⟨prog.length, SrcGen.TOTAL,
            failureText ⟨"OpenAI error 500: boom", none⟩, Status.error,
            some (failureText ⟨"OpenAI error 500: boom", none⟩)⟩] ∧
        ∀ b ∈ prog, b.status ≠ Status.error :=
  ⟨rfl, C3_error_broadcast envPlanFail ⟨"OpenAI error 500: boom", none⟩ rfl⟩

theorem srcPipelineOkWrites (env : SrcGen.GenEnv) (nm : String) (s : St)
    (h : SrcGen.pipeline env = Except.ok (nm, s)) :
    ∃ (r : NewRecord) (cat : Catalog),
      savedCatalog env.catalogOnDisk r = Except.ok cat ∧
      ∃ pre, s.writes = pre ++ [("scenarios.json", FileContent.catalog cat)] := by
  unfold SrcGen.pipeline at h
  rw [stageBindOkIff] at h
  obtain ⟨plan, s1, hplan, h⟩ := h
  rw [stageBindOkIff] at h
  obtain ⟨u1, s1b, hmk, h⟩ := h
  rw [stageBindOkIff] at h
  obtain ⟨bgImage, s3, hbg, h⟩ := h
  rw [stageBindOkIff] at h
  obtain ⟨u2, s4, hw1, h⟩ := h
  rw [stageBindOkIff] at h
  obtain ⟨locationPaths, s5, hloc, h⟩ := h
  rw [stageBindOkIff] at h
  obtain ⟨agentConfigs, s6, hag, h⟩ := h
  rw [stageBindOkIff] at h
  obtain ⟨cat, s7, hsave, h⟩ := h
  rw [stageBindOkIff] at h
  obtain ⟨u3, s8, hw2, h⟩ := h
  simp only [Except.ok.injEq, Prod.mk.injEq] at h
  obtain ⟨hnm, hs⟩ := h
  subst hs
  unfold liftStage at hsave
  cases hsc : savedCatalog env.catalogOnDisk
      ⟨plan.id ++ "_" ++ env.uuid8, plan.name,
        "assets/generated/" ++ plan.id ++ "_" ++ env.uuid8 ++ "/scenario/background.png",
        locationPaths, agentConfigs⟩ with
  | error f =>
    rw [hsc] at hsave
    cases hsave
  | ok c =>
    rw [hsc] at hsave
    simp only [Except.ok.injEq, Prod.mk.injEq] at hsave
    obtain ⟨hc, hs7⟩ := hsave
    subst hc
    unfold callWrite at hw2
    cases hwo : env.writeOutcome s7.nWrite with
    | error f2 =>
      rw [hwo] at hw2
      cases hw2
    | ok u4 =>
      rw [hwo] at hw2
      simp only [Except.ok.injEq, Prod.mk.injEq] at hw2
      obtain ⟨hu, hs8⟩ := hw2
      refine ⟨_, c, hsc, s7.writes, ?_⟩
      rw [← hs8]

/-- C5: saving a completed generation is purely additive to the catalog: with
an existing parsed catalog the new record is appended after all existing
entries, which — like `defaultScenarioId` — are unchanged; with no existing
file the catalog is seeded as `{defaultScenarioId: "neo_tokyo", scenarios:
[]}` before appending; and on every successful run the catalog so computed is
the final file write of the run.  (Pretty-printing is a JSON serialization
detail below this embedding, which records the written catalog value.) -/
theorem C5_catalog_append :
    (∀ (c : Catalog) (r : NewRecord),
        savedCatalog (some (Except.ok c)) r =
          Except.ok ⟨c.defaultScenarioId, c.scenarios ++ [CatEntry.generated r]⟩) ∧
    (∀ r : NewRecord,
        savedCatalog none r = Except.ok ⟨"neo_tokyo", [CatEntry.generated r]⟩) ∧
    (∀ env : SrcGen.GenEnv, (SrcGen.generateScenarioRun env).failed = none →
        ∃ (r : NewRecord) (cat : Catalog),
          savedCatalog env.catalogOnDisk r = Except.ok cat ∧
          ∃ pre, (SrcGen.generateScenarioRun env).writes =
            pre ++ [("scenarios.json", FileContent.catalog cat)]) := by
  refine ⟨fun c r => rfl, fun r => rfl, ?_⟩
  intro env hnone
  unfold SrcGen.generateScenarioRun at hnone ⊢
  cases hp : SrcGen.pipeline env with
  | error e =>
    obtain ⟨f, s⟩ := e
    simp only [hp] at hnone
    cases hnone
  | ok p =>
    obtain ⟨nm, s⟩ := p
    simp only [hp]
    obtain ⟨r, cat, hsc, pre, hw⟩ := srcPipelineOkWrites env nm s hp
    exact ⟨r, cat, hsc, pre, hw⟩

/-- Concrete, minimal all-success environment for the 44-step pipeline (one
location, one agent; the 44-step snapshot never validates plan lengths), with
one pre-existing catalog entry. -/
def envAllOk : SrcGen.GenEnv :=
  { planOutcome := Except.ok
      ⟨"cozy", "Cozy Village", "rolling hills",
        [⟨"Inn", "an inn"⟩],
        [⟨"Ava", "tall, green eyes"⟩]⟩
    imageOutcome := fun _ => Except.ok ⟨"png"⟩
    stripOutcome := fun _ => Except.ok ⟨"png"⟩
    writeOutcome := fun _ => Except.ok ()
    mkdirOutcome := Except.ok ()
    uuid8 := "deadbeef"
    catalogOnDisk := some (Except.ok ⟨"neo_tokyo", [CatEntry.pre "existing entry"]⟩) }

/-- C5 witness: a completed run against a catalog with one existing entry
appends the generated record as the final file write. -/
theorem C5_catalog_append_witness :
    (SrcGen.generateScenarioRun envAllOk).failed = none ∧
      ∃ (r : NewRecord) (cat : Catalog),
        savedCatalog envAllOk.catalogOnDisk r = Except.ok cat ∧
        ∃ pre, (SrcGen.generateScenarioRun envAllOk).writes =
          pre ++ [("scenarios.json", FileContent.catalog cat)] :=
  ⟨rfl, C5_catalog_append.2.2 envAllOk rfl⟩

theorem rangeOneAppend (s m n : Nat) :
    List.range' s m ++ List.range' (s + m) n = List.range' s (m + n) := by
  simp [Nat.add_comm]

theorem callImageOk (o : Nat → Except GenFailure Image) (req : ImageRequest) (s : St)
    (i : Image) (s2 : St) (h : callImage o req s = Except.ok (i, s2)) :
    s2 = { s with nImg := s.nImg + 1, reqs := s.reqs ++ [req] } := by
  unfold callImage at h
  cases ho : o s.nImg with
  | ok j =>
    rw [ho] at h
    simp only [Except.ok.injEq, Prod.mk.injEq] at h
    exact h.2.symm
  | error f =>
    rw [ho] at h
    cases h

theorem callStripOk (o : Nat → Except GenFailure Image) (s : St) (i : Image) (s2 : St)
    (h : callStrip o s = Except.ok (i, s2)) : s2 = { s with nStrip := s.nStrip + 1 } := by
  unfold callStrip at h
  cases ho : o s.nStrip with
  | ok j =>
    rw [ho] at h
    simp only [Except.ok.injEq, Prod.mk.injEq] at h
    exact h.2.symm
  | error f =>
    rw [ho] at h
    cases h

theorem callWriteOk (w : Nat → Except GenFailure Unit) (path : String)
    (content : FileContent) (s : St) (u : Unit) (s2 : St)
    (h : callWrite w path content s = Except.ok (u, s2)) :
    s2 = { s with nWrite := s.nWrite + 1, writes := s.writes ++ [(path, content)] } := by
  unfold callWrite at h
  cases ho : w s.nWrite with
  | ok v =>
    rw [ho] at h
    simp only [Except.ok.injEq, Prod.mk.injEq] at h
    exact h.2.symm
  | error f =>
    rw [ho] at h
    cases h

theorem liftStageOk {α : Type} (x : Except GenFailure α) (s : St) (a : α) (s2 : St)
    (h : liftStage x s = Except.ok (a, s2)) : x = Except.ok a ∧ s2 = s := by
  unfold liftStage at h
  cases x with
  | ok b =>
    simp only [Except.ok.injEq, Prod.mk.injEq] at h
    exact ⟨by rw [h.1], h.2.symm⟩
  | error f => cases h

theorem specLocLoopOk (env : SpecGen.GenEnv) (rel : String) :
    ∀ (locs : List LocationPlan) (i : Nat) (s : St) (paths : List String) (s2 : St),
      SpecGen.locLoop env rel locs i s = Except.ok (paths, s2) →
      s2.step = s.step + locs.length ∧
      s2.reqs = s.reqs ++ locs.map SpecGen.locationRequest ∧
      ∃ nb, s2.brds = s.brds ++ nb ∧
        nb.map (fun b => b.step) = List.range' (s.step + 1) locs.length ∧
        ∀ b ∈ nb, b.total = 49 ∧ b.status = Status.generating := by
  intro locs
  induction locs with
  | nil =>
    intro i s paths s2 h
    simp only [SpecGen.locLoop, Except.ok.injEq, Prod.mk.injEq] at h
    obtain ⟨hp, hs⟩ := h
    subst hs
    exact ⟨by simp, by simp, [], by simp, by simp, by simp⟩
  | cons loc rest ih =>
    intro i s paths s2 h
    unfold SpecGen.locLoop at h
    rw [stageBindOkIff] at h
    obtain ⟨img1, sA, hA, h⟩ := h
    rw [stageBindOkIff] at h
    obtain ⟨img2, sB, hB, h⟩ := h
    rw [stageBindOkIff] at h
    obtain ⟨u1, sC, hC, h⟩ := h
    rw [stageBindOkIff] at h
    obtain ⟨paths2, sD, hD, h⟩ := h
    simp only [Except.ok.injEq, Prod.mk.injEq] at h
    obtain ⟨hpaths, hs2⟩ := h
    subst hs2
    have hA2 := callImageOk _ _ _ _ _ hA
    subst hA2
    have hB2 := callStripOk _ _ _ _ hB
    subst hB2
    have hC2 := callWriteOk _ _ _ _ _ _ hC
    subst hC2
    obtain ⟨hstepD, hreqsD, nb2, hbrdsD, hmapD, hstD⟩ := ih (i + 1) _ paths2 sD hD
    refine ⟨?_, ?_,
      ⟨s.step + 1, 49, "Generating location: " ++ loc.name ++ "...",
        Status.generating, none⟩ :: nb2, ?_, ?_, ?_⟩
    · rw [hstepD]
      simp [emit]
      omega
    · rw [hreqsD]
      simp [emit]
    · rw [hbrdsD]
      simp [emit, SpecGen.TOTAL]
    · rw [List.map_cons, hmapD]
      simp only [List.length_cons]
      rw [List.range'_succ]
      simp [emit]
    · intro b hb
      rcases List.mem_cons.mp hb with hb | hb
      · subst hb
        exact ⟨rfl, rfl⟩
      · exact hstD b hb

theorem specStateLoopOk (env : SpecGen.GenEnv) (rel : String) (agentIdx : Nat)
    (agentName : String) (desc : String) :
    ∀ (pairs : List (String × String)) (s : St) (states : List (String × String)) (s2 : St),
      SpecGen.stateLoop env rel agentIdx agentName desc pairs s = Except.ok (states, s2) →
      s2.step = s.step + pairs.length ∧
      s2.reqs = s.reqs ++ pairs.map (fun pr => SpecGen.agentRequest desc pr.2) ∧
      ∃ nb, s2.brds = s.brds ++ nb ∧
        nb.map (fun b => b.step) = List.range' (s.step + 1) pairs.length ∧
        ∀ b ∈ nb, b.total = 49 ∧ b.status = Status.generating := by
  intro pairs
  induction pairs with
  | nil =>
    intro s states s2 h
    simp only [SpecGen.stateLoop, Except.ok.injEq, Prod.mk.injEq] at h
    obtain ⟨hp, hs⟩ := h
    subst hs
    exact ⟨by simp, by simp, [], by simp, by simp, by simp⟩
  | cons pr rest ih =>
    intro s states s2 h
    obtain ⟨stName, suffix⟩ := pr
    unfold SpecGen.stateLoop at h
    rw [stageBindOkIff] at h
    obtain ⟨img1, sA, hA, h⟩ := h
    rw [stageBindOkIff] at h
    obtain ⟨img2, sB, hB, h⟩ := h
    rw [stageBindOkIff] at h
    obtain ⟨u1, sC, hC, h⟩ := h
    rw [stageBindOkIff] at h
    obtain ⟨states2, sD, hD, h⟩ := h
    simp only [Except.ok.injEq, Prod.mk.injEq] at h
    obtain ⟨hstates, hs2⟩ := h
    subst hs2
    have hA2 := callImageOk _ _ _ _ _ hA
    subst hA2
    have hB2 := callStripOk _ _ _ _ hB
    subst hB2
    have hC2 := callWriteOk _ _ _ _ _ _ hC
    subst hC2
    obtain ⟨hstepD, hreqsD, nb2, hbrdsD, hmapD, hstD⟩ := ih _ states2 sD hD
    refine ⟨?_, ?_,
      ⟨s.step + 1, 49, "Generating " ++ agentName ++ " (" ++ stName ++ ")...",
        Status.generating, none⟩ :: nb2, ?_, ?_, ?_⟩
    · rw [hstepD]
      simp [emit]
      omega
    · rw [hreqsD]
      simp [emit]
    · rw [hbrdsD]
      simp [emit, SpecGen.TOTAL]
    · rw [List.map_cons, hmapD]
      simp only [List.length_cons]
      rw [List.range'_succ]
      simp [emit]
    · intro b hb
      rcases List.mem_cons.mp hb with hb | hb
      · subst hb
        exact ⟨rfl, rfl⟩
      · exact hstD b hb

theorem specAgentLoopOk (env : SpecGen.GenEnv) (rel : String) :
    ∀ (ags : List AgentPlan) (i : Nat) (s : St) (cfgs : List AgentCfg) (s2 : St),
      SpecGen.agentLoop env rel ags i s = Except.ok (cfgs, s2) →
      s2.step = s.step + 5 * ags.length ∧
      s2.reqs = s.reqs ++ ags.flatMap (fun a => SpecGen.AGENT_STATE_SUFFIXES.map
        (fun pr => SpecGen.agentRequest a.physicalDescription pr.2)) ∧
      ∃ nb, s2.brds = s.brds ++ nb ∧
        nb.map (fun b => b.step) = List.range' (s.step + 1) (5 * ags.length) ∧
        ∀ b ∈ nb, b.total = 49 ∧ b.status = Status.generating := by
  intro ags
  induction ags with
  | nil =>
    intro i s cfgs s2 h
    simp only [SpecGen.agentLoop, Except.ok.injEq, Prod.mk.injEq] at h
    obtain ⟨hp, hs⟩ := h
    subst hs
    exact ⟨by simp, by simp, [], by simp, by simp, by simp⟩
  | cons agent rest ih =>
    intro i s cfgs s2 h
    unfold SpecGen.agentLoop at h
    rw [stageBindOkIff] at h
    obtain ⟨states1, sA, hA, h⟩ := h
    rw [stageBindOkIff] at h
    obtain ⟨cfgs2, sB, hB, h⟩ := h
    simp only [Except.ok.injEq, Prod.mk.injEq] at h
    obtain ⟨hcfgs, hs2⟩ := h
    subst hs2
    obtain ⟨hstepA, hreqsA, nbA, hbrdsA, hmapA, hstA⟩ :=
      specStateLoopOk env rel i agent.name agent.physicalDescription
        SpecGen.AGENT_STATE_SUFFIXES s states1 sA hA
    obtain ⟨hstepB, hreqsB, nbB, hbrdsB, hmapB, hstB⟩ := ih (i + 1) sA cfgs2 sB hB
    have hlen : SpecGen.AGENT_STATE_SUFFIXES.length = 5 := rfl
    rw [hlen] at hstepA hmapA
    refine ⟨?_, ?_, nbA ++ nbB, ?_, ?_, ?_⟩
    · rw [hstepB, hstepA]
      simp only [List.length_cons]
      ring
    · rw [hreqsB, hreqsA]
      simp only [List.flatMap_cons, List.append_assoc]
    · rw [hbrdsB, hbrdsA, List.append_assoc]
    · rw [List.map_append, hmapB, hmapA, hstepA]
      have h5 : 5 * (agent :: rest).length = 5 + 5 * rest.length := by
        simp only [List.length_cons]
        ring
      rw [h5]
      have := rangeOneAppend (s.step + 1) 5 (5 * rest.length)
      rw [← this]
    · intro b hb
      rcases List.mem_append.mp hb with hb | hb
      · exact hstA b hb
      · exact hstB b hb

theorem assignStationRolesLength :
    ∀ (i : Nat) (locs : List RawLocation),
      (assignStationRoles i locs).length = locs.length := by
  intro i locs
  induction locs generalizing i with
  | nil => rfl
  | cons a rest ih => simp [assignStationRoles, ih]

theorem planLocationsOkLength (p : Option (List RawLocation)) (out : List LocationPlan)
    (h : planLocations p = Except.ok out) : out.length = 9 := by
  cases p with
  | none => simp [planLocations] at h
  | some locs =>
    simp only [planLocations] at h
    by_cases h9 : locs.length = 9
    · rw [if_pos h9] at h
      simp only [Except.ok.injEq] at h
      subst h
      rw [assignStationRolesLength]
      exact h9
    · rw [if_neg h9] at h
      cases h

theorem planAgentsOk (p : Option (List AgentPlan)) (out : List AgentPlan)
    (h : planAgents p = Except.ok out) : p = some out ∧ out.length = 7 := by
  cases p with
  | none => simp [planAgents] at h
  | some ags =>
    simp only [planAgents] at h
    by_cases h7 : ags.length = 7
    · rw [if_pos h7] at h
      simp only [Except.ok.injEq] at h
      subst h
      exact ⟨rfl, h7⟩
    · rw [if_neg h7] at h
      cases h

theorem liftPlannerErrorOk {β : Type} (x : Except String β) (b : β)
    (h : liftPlannerError x = Except.ok b) : x = Except.ok b := by
  cases x with
  | ok c =>
    simp only [liftPlannerError, Except.ok.injEq] at h
    rw [h]
  | error m => simp [liftPlannerError] at h

theorem callImageOkF (o : Nat → Except GenFailure Image) (req : ImageRequest) (s : St)
    (i : Image) (s2 : St) (h : callImage o req s = Except.ok (i, s2)) :
    s2.step = s.step ∧ s2.brds = s.brds ∧ s2.reqs = s.reqs ++ [req] ∧
      s2.writes = s.writes := by
  have h2 := callImageOk o req s i s2 h
  subst h2
  exact ⟨rfl, rfl, rfl, rfl⟩

theorem callWriteOkF (w : Nat → Except GenFailure Unit) (path : String)
    (content : FileContent) (s : St) (u : Unit) (s2 : St)
    (h : callWrite w path content s = Except.ok (u, s2)) :
    s2.step = s.step ∧ s2.brds = s.brds ∧ s2.reqs = s.reqs ∧
      s2.writes = s.writes ++ [(path, content)] := by
  have h2 := callWriteOk w path content s u s2 h
  subst h2
  exact ⟨rfl, rfl, rfl, rfl⟩

theorem specPipelineOk (env : SpecGen.GenEnv) (nm : String) (s : St)
    (h : SpecGen.pipeline env = Except.ok (nm, s)) :
    (s.step = 49 ∧
     s.brds.map (fun b => b.step) = List.range' 1 49 ∧
     ∀ b ∈ s.brds, b.total = 49 ∧ b.status ≠ Status.error ∧ b.status ≠ Status.complete) ∧
    ∃ (meta : ScenarioMeta) (locPlans : List LocationPlan) (agentPlans : List AgentPlan),
      env.metaCall = Except.ok meta ∧
      env.agentsCall = Except.ok (some agentPlans) ∧
      locPlans.length = 9 ∧ agentPlans.length = 7 ∧
      s.reqs = SpecGen.backgroundRequest meta ::
        (locPlans.map SpecGen.locationRequest ++
          agentPlans.flatMap (fun a => SpecGen.AGENT_STATE_SUFFIXES.map
            (fun pr => SpecGen.agentRequest a.physicalDescription pr.2))) := by
  unfold SpecGen.pipeline at h
  rw [stageBindOkIff] at h
  obtain ⟨meta, s1, hmeta, h⟩ := h
  rw [stageBindOkIff] at h
  obtain ⟨parsedLocs, s2, hlocs, h⟩ := h
  rw [stageBindOkIff] at h
  obtain ⟨locPlans, s2b, hlocPlans, h⟩ := h
  rw [stageBindOkIff] at h
  obtain ⟨parsedAgents, s3, hagsCall, h⟩ := h
  rw [stageBindOkIff] at h
  obtain ⟨agentPlans, s3b, hagPlans, h⟩ := h
  rw [stageBindOkIff] at h
  obtain ⟨u0, s3c, hmk, h⟩ := h
  rw [stageBindOkIff] at h
  obtain ⟨bgImage, s4, hbg, h⟩ := h
  rw [stageBindOkIff] at h
  obtain ⟨u1, s4b, hbgw, h⟩ := h
  rw [stageBindOkIff] at h
  obtain ⟨locationPaths, s5, hloc, h⟩ := h
  rw [stageBindOkIff] at h
  obtain ⟨agentConfigs, s6, hag, h⟩ := h
  rw [stageBindOkIff] at h
  obtain ⟨cat, s7, hsave, h⟩ := h
  rw [stageBindOkIff] at h
  obtain ⟨u2, s8, hw2, h⟩ := h
  simp only [Except.ok.injEq, Prod.mk.injEq] at h
  obtain ⟨hnm, hs⟩ := h
  subst hs
  obtain ⟨hmetaEq, hs1⟩ := liftStageOk _ _ _ _ hmeta
  subst hs1
  obtain ⟨hlocsEq, hs2⟩ := liftStageOk _ _ _ _ hlocs
  subst hs2
  obtain ⟨hlocPlansEq, hs2b⟩ := liftStageOk _ _ _ _ hlocPlans
  subst hs2b
  obtain ⟨hagsEq, hs3⟩ := liftStageOk _ _ _ _ hagsCall
  subst hs3
  obtain ⟨hagPlansEq, hs3b⟩ := liftStageOk _ _ _ _ hagPlans
  subst hs3b
  obtain ⟨hmkEq, hs3c⟩ := liftStageOk _ _ _ _ hmk
  subst hs3c
  obtain ⟨hs4step, hs4brds, hs4reqs, hs4writes⟩ := callImageOkF _ _ _ _ _ hbg
  obtain ⟨hs4bstep, hs4bbrds, hs4breqs, hs4bwrites⟩ := callWriteOkF _ _ _ _ _ _ hbgw
  have hlocPlans9 : locPlans.length = 9 :=
    planLocationsOkLength _ _ (liftPlannerErrorOk _ _ hlocPlansEq)
  obtain ⟨hagsSome, hagents7⟩ := planAgentsOk _ _ (liftPlannerErrorOk _ _ hagPlansEq)
  obtain ⟨hstep5, hreqs5, nbL, hbrds5, hmapL, hstL⟩ :=
    specLocLoopOk env _ locPlans 0 _ locationPaths s5 hloc
  obtain ⟨hstep6, hreqs6, nbA, hbrds6, hmapA, hstA⟩ :=
    specAgentLoopOk env _ agentPlans 0 s5 agentConfigs s6 hag
  obtain ⟨hcatEq, hs7⟩ := liftStageOk _ _ _ _ hsave
  subst hs7
  obtain ⟨hs8step, hs8brds, hs8reqs, hs8writes⟩ := callWriteOkF _ _ _ _ _ _ hw2
  -- normalize the concrete planning-prefix state
  simp only [emit, initSt, List.nil_append, List.singleton_append, List.cons_append,
    List.append_nil] at hs4step hs4brds hs4reqs
  -- concrete step counts
  have hstep4b : s4b.step = 4 := by
    rw [hs4bstep, hs4step]
  have hstep5c : s5.step = 13 := by
    rw [hstep5, hstep4b, hlocPlans9]
  have hstep6c : s6.step = 48 := by
    rw [hstep6, hstep5c, hagents7]
  have hstep8 : s8.step = 49 := by
    rw [hs8step]
    simp only [emit]
    rw [hstep6c]
  refine ⟨⟨hstep8, ?_, ?_⟩, meta, locPlans, agentPlans, hmetaEq, ?_, hlocPlans9, hagents7, ?_⟩
  · -- the broadcast step trace is 1..49
    rw [hs8brds]
    simp only [emit]
    rw [hbrds6, hbrds5, hs4bbrds, hs4brds]
    rw [hstep4b, hlocPlans9] at hmapL
    rw [hstep5c, hagents7] at hmapA
    norm_num at hmapL hmapA
    rw [hstep6c]
    simp only [List.map_append, List.map_cons, List.map_nil, hmapL, hmapA,
      List.append_assoc]
    norm_num
    decide
  · -- every pipeline broadcast is a progress broadcast with total 49
    intro b hb
    rw [hs8brds] at hb
    simp only [emit] at hb
    rw [hbrds6, hbrds5, hs4bbrds, hs4brds] at hb
    rcases List.mem_append.mp hb with hb2 | hb2
    · rcases List.mem_append.mp hb2 with hb3 | hb3
      · rcases List.mem_append.mp hb3 with hb4 | hb4
        · simp only [List.mem_cons, List.not_mem_nil, or_false] at hb4
          rcases hb4 with h4 | h4 | h4 | h4 <;> subst h4 <;>
            exact ⟨rfl, by decide, by decide⟩
        · have := hstL b hb4
          exact ⟨this.1, by rw [this.2]; decide, by rw [this.2]; decide⟩
      · have := hstA b hb3
        exact ⟨this.1, by rw [this.2]; decide, by rw [this.2]; decide⟩
    · simp only [List.mem_cons, List.not_mem_nil, or_false] at hb2
      subst hb2
      exact ⟨rfl, by simp, by simp⟩
  · -- the agents planning call returned exactly the 7 agent plans
    rw [hagsEq, hagsSome]
  · -- the image requests: background, then the 9 locations, then 7×5 poses
    rw [hs8reqs]
    simp only [emit]
    rw [hreqs6, hreqs5, hs4breqs, hs4reqs]
    simp [List.append_assoc]

/-- C1: on every successful run of the 49-step `generateScenario` (modelled
from the spec; the newest snapshot is not among the given sources), the
broadcasts are 49 progress updates whose `step` values are exactly 1, 2, …,
49 — strictly increasing from 1 to the fixed total 49 = 3 planning + 1
background + 9 locations + 7×5 agent poses + 1 save — followed by one final
broadcast with status `complete` and `step = total = 49`; every update
carries `total = 49`. -/
theorem C1_step_trace (env : SpecGen.GenEnv)
    (h : (SpecGen.generateScenarioRun env).failed = none) :
    ∃ (prog : List Broadcast) (last : Broadcast),
      (SpecGen.generateScenarioRun env).broadcasts = prog ++ [last] ∧
      prog.map (fun b => b.step) = List.range' 1 49 ∧
      prog.length = 49 ∧
      (∀ b ∈ prog, b.total = 49 ∧ b.status ≠ Status.complete ∧ b.status ≠ Status.error) ∧
      last.status = Status.complete ∧ last.step = 49 ∧ last.total = 49 := by
  unfold SpecGen.generateScenarioRun at h ⊢
  cases hp : SpecGen.pipeline env with
  | error e =>
    obtain ⟨f, s⟩ := e
    simp only [hp] at h
    cases h
  | ok p =>
    obtain ⟨nm, s⟩ := p
    simp only [hp]
    obtain ⟨⟨hstep, hmap, hall⟩, _⟩ := specPipelineOk env nm s hp
    refine ⟨s.brds, ⟨49, 49, "\"" ++ nm ++ "\" is ready!", Status.complete, none⟩,
      rfl, hmap, ?_, ?_, rfl, rfl, rfl⟩
    · have := congrArg List.length hmap
      simpa using this
    · intro b hb
      have := hall b hb
      exact ⟨this.1, this.2.2, this.2.1⟩

/-- C4: in the (spec-modelled) 49-step generator, the pose suffix table is
exactly the spec's table — idle → "standing natural", walking → "running",
working → "focused, staring at hands, scowling", thinking → "head in hands,
confused", finished → "triumphant, fist pump, cheering" — and on every
successful run the diffusion prompts of the 35 agent-pose requests (requests
11 onward: after the background and the 9 locations) are, for agent `a` and
each of the five states in order, `buildAgentPrompt` of the agent's planned
physical description and the state's table suffix, i.e. the description with
the fixed suffix appended (after the fixed style-tag prefix). -/
theorem C4_pose_prompts (env : SpecGen.GenEnv)
    (h : (SpecGen.generateScenarioRun env).failed = none) :
    SpecGen.AGENT_STATE_SUFFIXES =
      [("idle", "standing natural"), ("walking", "running"),
       ("working", "focused, staring at hands, scowling"),
       ("thinking", "head in hands, confused"),
       ("finished", "triumphant, fist pump, cheering")] ∧
    (∀ desc suffix, (SpecGen.agentRequest desc suffix).prompt =
      buildAgentPrompt desc suffix) ∧
    (∀ desc suffix, buildAgentPrompt desc suffix =
      "(one person),(painterly),(full body),feet,black background," ++ desc ++ "," ++
        suffix) ∧
    ∃ agentPlans : List AgentPlan,
      env.agentsCall = Except.ok (some agentPlans) ∧
      agentPlans.length = 7 ∧
      (SpecGen.generateScenarioRun env).reqs.drop 10 =
        agentPlans.flatMap (fun a => SpecGen.AGENT_STATE_SUFFIXES.map
          (fun pr => SpecGen.agentRequest a.physicalDescription pr.2)) := by
  unfold SpecGen.generateScenarioRun at h ⊢
  cases hp : SpecGen.pipeline env with
  | error e =>
    obtain ⟨f, s⟩ := e
    simp only [hp] at h
    cases h
  | ok p =>
    obtain ⟨nm, s⟩ := p
    simp only [hp]
    obtain ⟨_, meta, locPlans, agentPlans, hmetaEq, hagsEq, hlen9, hlen7, hreqs⟩ :=
      specPipelineOk env nm s hp
    refine ⟨rfl, fun desc suffix => rfl, fun desc suffix => rfl,
      agentPlans, hagsEq, hlen7, ?_⟩
    rw [hreqs]
    simp only [show (10 : Nat) = 9 + 1 from rfl, List.drop_succ_cons]
    have hmaplen : (locPlans.map SpecGen.locationRequest).length = 9 := by
      simp [hlen9]
    rw [← hmaplen, List.drop_left]

/-- Concrete all-success environment for the 49-step pipeline: 9 parsed
locations, 7 parsed agents, all external calls succeeding, no existing
catalog. -/
def envSpecOk : SpecGen.GenEnv :=
  { metaCall := Except.ok ⟨"cozy", "Cozy Village", "rolling hills"⟩
    locsCall := Except.ok (some (List.replicate 9 ⟨"Hall", "a hall"⟩))
    agentsCall := Except.ok (some (List.replicate 7 ⟨"Ava", "tall, green eyes"⟩))
    imageOutcome := fun _ => Except.ok ⟨"png"⟩
    stripOutcome := fun _ => Except.ok ⟨"png"⟩
    writeOutcome := fun _ => Except.ok ()
    mkdirOutcome := Except.ok ()
    uuid8 := "deadbeef"
    catalogOnDisk := none }

/-- C1 witness: the trace property holds on a concrete all-success run. -/
theorem C1_step_trace_witness :
    (SpecGen.generateScenarioRun envSpecOk).failed = none ∧
      ∃ (prog : List Broadcast) (last : Broadcast),
        (SpecGen.generateScenarioRun envSpecOk).broadcasts = prog ++ [last] ∧
        prog.map (fun b => b.step) = List.range' 1 49 ∧
        prog.length = 49 ∧
        (∀ b ∈ prog, b.total = 49 ∧ b.status ≠ Status.complete ∧
          b.status ≠ Status.error) ∧
        last.status = Status.complete ∧ last.step = 49 ∧ last.total = 49 :=
  ⟨rfl, C1_step_trace envSpecOk rfl⟩

/-- C4 witness: the pose-prompt property holds on a concrete all-success
run. -/
theorem C4_pose_prompts_witness :
    (SpecGen.generateScenarioRun envSpecOk).failed = none ∧
      (SpecGen.AGENT_STATE_SUFFIXES =
        [("idle", "standing natural"), ("walking", "running"),
         ("working", "focused, staring at hands, scowling"),
         ("thinking", "head in hands, confused"),
         ("finished", "triumphant, fist pump, cheering")] ∧
      (∀ desc suffix, (SpecGen.agentRequest desc suffix).prompt =
        buildAgentPrompt desc suffix) ∧
      (∀ desc suffix, buildAgentPrompt desc suffix =
        "(one person),(painterly),(full body),feet,black background," ++ desc ++ "," ++
          suffix) ∧
      ∃ agentPlans : List AgentPlan,
        envSpecOk.agentsCall = Except.ok (some agentPlans) ∧
        agentPlans.length = 7 ∧
        (SpecGen.generateScenarioRun envSpecOk).reqs.drop 10 =
          agentPlans.flatMap (fun a => SpecGen.AGENT_STATE_SUFFIXES.map
            (fun pr => SpecGen.agentRequest a.physicalDescription pr.2))) :=
  ⟨rfl, C4_pose_prompts envSpecOk rfl⟩
